import Mathlib

/-!
Shallow embedding of the client-side simulation state synchronization layer of
`agent-grid-sim`:

* `src/apps/frontend/src/lib/api.ts` — the API client (`apiCall`, `healthCheck`);
* `src/apps/frontend/src/context/SimulationContext.tsx` — the simulation state
  store (`loadBasicData`, `loadEnhancedData`, `loadAllData`, `step`, `reset`,
  `triggerEmergencyMode`, `forceCoordinationMode`, and the periodic interval
  callback installed by the mount effect);
* `src/apps/frontend/src/components/GridMap.tsx` — the grid projection
  (cell keys and `renderCell`).

Asynchronous network calls are embedded by passing each call's outcome as an
explicit argument (`FetchOutcome` at the transport level, `Except JsError _`
at the operation level); JSON parsing is abstracted as an already-typed body.
React `useState` setters become record updates on an explicit `SimState`;
a sequence of setter calls inside one handler is the corresponding sequence
of record updates.
-/

namespace AgentGridSim

/-- Errors observable by callers of the API client.  `apiError` is the
`new Error(...)` that `apiCall` itself constructs for a non-2xx response;
`transport` is an exception thrown by the underlying `fetch` transport
(e.g. `TypeError: Failed to fetch`), which the source rethrows unchanged. -/
inductive JsError where
  | apiError (msg : String)
  | transport (msg : String)
  deriving Repr, DecidableEq

/-- The `.message` property of the (Error-valued) exception. -/
def JsError.message : JsError → String
  | .apiError m => m
  | .transport m => m

/-- Outcome of one browser `fetch`: either the transport throws, or an HTTP
response arrives with a status code, a status text and an (already
JSON-parsed) body. -/
inductive FetchOutcome (α : Type) where
  | netFail (msg : String)
  | response (status : Nat) (statusText : String) (body : α)

/-- `apiCall` from `src/apps/frontend/src/lib/api.ts` (lines 3–32).
On `response.ok` (HTTP status 200–299) it returns the parsed body; on a
non-2xx response it throws `new Error` with the message
`API call failed: <status> <statusText>`; an exception thrown by `fetch`
itself is caught, logged and rethrown unchanged (`throw error`). -/
def apiCall {α : Type} (endpoint : String) (o : FetchOutcome α) : Except JsError α :=
  match o with
  | .netFail msg => .error (.transport msg)
  | .response status statusText body =>
      if 200 ≤ status ∧ status < 300 then
        .ok body
      else
        .error (.apiError ("API call failed: " ++ toString status ++ " " ++ statusText))

/-- `healthCheck` from `src/apps/frontend/src/lib/api.ts` (lines 91–99): it
calls `fetch` directly (not `apiCall`), never inspects `response.ok`, returns
`response.json()` for any response, and rethrows transport failures
unchanged. -/
def healthCheck {α : Type} (o : FetchOutcome α) : Except JsError α :=
  match o with
  | .netFail msg => .error (.transport msg)
  | .response _ _ body => .ok body

/-- A grid cell (`Cell`): `occupied_by` and `structure` are optional string
fields of the backend payload. -/
structure Cell where
  occupied_by : Option String
  «structure» : Option String
  deriving Repr, DecidableEq

/-- The grid payload: `{width, height, cells: {"x,y": Cell}}`; the cell object
is embedded as an association list from coordinate key to cell. -/
structure Grid where
  width : Nat
  height : Nat
  cells : List (String × Cell)
  deriving Repr, DecidableEq

/-- An agent's state as delivered by `/agents` (fields per the spec's
`AgentState`; no store operation inspects them). -/
structure AgentState where
  id : String
  role : String
  status : String
  memory : List String
  position : Option (Nat × Nat)
  deriving Repr, DecidableEq

/-- The `agents` payload: mapping from agent identifier to `AgentState`. -/
abbrev AgentsMap := List (String × AgentState)

/-- The `/logs` payload `{logs: string[]}`; `none` models a missing/null
`logs` field (the source guards with `l.logs || []`). -/
structure LogsResponse where
  logs : Option (List String)
  deriving Repr, DecidableEq

/-- `ConditionalMetrics` as declared in `src/apps/frontend/src/lib/api.ts`. -/
structure ConditionalMetrics where
  mission_phase : String
  phase_transitions : Nat
  coordination_events : Nat
  emergency_activations : Nat
  last_activity : List (String × String)
  coordination_needed : Bool
  strategic_plan_ready : Bool
  active_threats : Nat
  resource_constraints : Bool
  deriving Repr, DecidableEq

/-- One entry of `PhaseInfo.phase_transitions`. -/
structure PhaseTransition where
  step : Nat
  «from» : String
  «to» : String
  deriving Repr, DecidableEq

/-- One entry of `PhaseInfo.coordination_events`. -/
structure CoordinationEvent where
  step : Nat
  type : String
  deriving Repr, DecidableEq

/-- `PhaseInfo.targets` as declared in the API client. -/
structure Targets where
  exploration_target : Nat
  building_target : Nat
  max_steps : Nat
  deriving Repr, DecidableEq

/-- `PhaseInfo` as declared in `src/apps/frontend/src/lib/api.ts`.  The float
`exploration_progress` is carried opaquely as a rational; no store operation
computes with it. -/
structure PhaseInfo where
  current_phase : String
  step_count : Nat
  current_objectives : List String
  exploration_progress : Rat
  buildings_built : Nat
  coordination_needed : Bool
  emergency_mode : Bool
  strategic_plan_ready : Bool
  phase_transitions : List PhaseTransition
  coordination_events : List CoordinationEvent
  targets : Targets
  deriving Repr, DecidableEq

/-- `HealthStatus` as declared in `src/apps/frontend/src/lib/api.ts`. -/
structure HealthStatus where
  status : String
  simulation : String
  agents : Nat
  grid_size : String
  mission_phase : String
  coordination_active : Bool
  emergency_mode : Bool
  openai_configured : Bool
  conditional_flows : String
  deriving Repr, DecidableEq

/-- The `/step` response `{grid, logs, agents, step_count, status,
mission_phase}`.  `grid` is stored without a guard (`setGrid(result.grid)`),
while `logs` and `agents` are guarded (`result.logs || []`,
`result.agents || {}`), hence the `Option` fields. -/
structure StepResult where
  grid : Option Grid
  logs : Option (List String)
  agents : Option AgentsMap
  step_count : Nat
  status : String
  mission_phase : String
  deriving Repr, DecidableEq

/-- The connection-status state machine values of the store. -/
inductive ConnStatus where
  | connecting
  | connected
  | disconnected
  deriving Repr, DecidableEq

/-- The reactive state owned by `SimulationProvider`
(`src/apps/frontend/src/context/SimulationContext.tsx`, lines 62–80).
`lastUpdated` holds an abstract timestamp. -/
structure SimState where
  grid : Option Grid
  logs : List String
  agents : AgentsMap
  conditionalMetrics : Option ConditionalMetrics
  phaseInfo : Option PhaseInfo
  healthStatus : Option HealthStatus
  loading : Bool
  stepping : Bool
  error : Option String
  connectionStatus : ConnStatus
  lastUpdated : Option Nat
  deriving Repr, DecidableEq

/-- The `useState` initial values of `SimulationProvider`. -/
def initialState : SimState :=
  { grid := none
    logs := []
    agents := []
    conditionalMetrics := none
    phaseInfo := none
    healthStatus := none
    loading := true
    stepping := false
    error := none
    connectionStatus := .connecting
    lastUpdated := none }

/-- `loadBasicData` (SimulationContext.tsx lines 82–100): awaits
`Promise.all([fetchGrid(), fetchLogs(), fetchAgents()])` and stores the three
results.  `Promise.all` rejects with the first rejection; which of several
failures is surfaced does not affect the store, so rejections are scanned
left to right here.  Returns the updated state, or the propagated error. -/
def loadBasicData (s : SimState) (g : Except JsError Grid)
    (l : Except JsError LogsResponse) (a : Except JsError AgentsMap) :
    Except JsError SimState :=
  match g, l, a with
  | .ok gv, .ok lv, .ok av =>
      .ok { s with grid := some gv, logs := lv.logs.getD [], agents := av }
  | .error e, _, _ => .error e
  | _, .error e, _ => .error e
  | _, _, .error e => .error e

/-- `loadEnhancedData` (SimulationContext.tsx lines 102–135): the three
enhanced fetches each carry their own `.catch(e => null)`, so every failure
degrades that one field to null; the surrounding try/catch can never fire.
This operation never throws. -/
def loadEnhancedData (s : SimState) (m : Except JsError ConditionalMetrics)
    (p : Except JsError PhaseInfo) (h : Except JsError HealthStatus) : SimState :=
  { s with
    conditionalMetrics := m.toOption
    phaseInfo := p.toOption
    healthStatus := h.toOption }

/-- The fallback log line written by `loadAllData` when the basic load fails. -/
def fallbackLogLine : String :=
  "❌ Failed to connect to backend. Please ensure the backend server is running on http://localhost:8000"

/-- `loadAllData` (SimulationContext.tsx lines 137–172): sets
loading/error/connecting, awaits `loadBasicData` then `loadEnhancedData`,
and on success marks `connected` and stamps `lastUpdated`.  A failure of the
basic load falls into the catch block, which records the error message,
marks `disconnected`, and resets grid/logs/agents to the explicit fallback
values and the three enhanced fields to null.  `finally` clears `loading`. -/
def loadAllData (s : SimState) (g : Except JsError Grid)
    (l : Except JsError LogsResponse) (a : Except JsError AgentsMap)
    (m : Except JsError ConditionalMetrics) (p : Except JsError PhaseInfo)
    (h : Except JsError HealthStatus) (now : Nat) : SimState :=
  let s1 : SimState := { s with loading := true, error := none, connectionStatus := .connecting }
  match loadBasicData s1 g l a with
  | .ok s2 =>
      let s3 := loadEnhancedData s2 m p h
      { s3 with
        connectionStatus := .connected
        error := none
        lastUpdated := some now
        loading := false }
  | .error e =>
      { s1 with
        error := some ("Failed to connect to backend: " ++ e.message)
        connectionStatus := .disconnected
        grid := none
        logs := [fallbackLogLine]
        agents := []
        conditionalMetrics := none
        phaseInfo := none
        healthStatus := none
        loading := false }

/-- `step` (SimulationContext.tsx lines 174–208): sets stepping/error, awaits
`stepSimulation()`; on success replaces grid/logs/agents from the step result,
runs `loadEnhancedData`, marks `connected` and stamps `lastUpdated`; on
failure records the error message and marks `disconnected`, touching nothing
else.  `finally` clears `stepping`. -/
def step (s : SimState) (r : Except JsError StepResult)
    (m : Except JsError ConditionalMetrics) (p : Except JsError PhaseInfo)
    (h : Except JsError HealthStatus) (now : Nat) : SimState :=
  let s1 : SimState := { s with stepping := true, error := none }
  match r with
  | .ok rv =>
      let s2 : SimState :=
        { s1 with grid := rv.grid, logs := rv.logs.getD [], agents := rv.agents.getD [] }
      let s3 := loadEnhancedData s2 m p h
      { s3 with connectionStatus := .connected, lastUpdated := some now, stepping := false }
  | .error e =>
      { s1 with
        error := some ("Failed to step simulation: " ++ e.message)
        connectionStatus := .disconnected
        stepping := false }

/-- `reset` (SimulationContext.tsx lines 210–227): sets loading/error, awaits
`resetSimulation()` and then a full `loadAllData`.  Only the backend reset can
throw (`loadAllData` swallows its own failures), and its failure merely
records an error message — there is no `finally`, and neither the connection
status nor the snapshot is touched. -/
def reset (s : SimState) (r : Except JsError Unit) (g : Except JsError Grid)
    (l : Except JsError LogsResponse) (a : Except JsError AgentsMap)
    (m : Except JsError ConditionalMetrics) (p : Except JsError PhaseInfo)
    (h : Except JsError HealthStatus) (now : Nat) : SimState :=
  let s1 : SimState := { s with loading := true, error := none }
  match r with
  | .ok _ => loadAllData s1 g l a m p h now
  | .error e =>
      { s1 with error := some ("Failed to reset simulation: " ++ e.message) }

/-- `triggerEmergencyMode` (SimulationContext.tsx lines 233–247): awaits
`triggerEmergency()` then refreshes the enhanced data; a failure only records
an error message (connection status and snapshot are untouched). -/
def triggerEmergencyMode (s : SimState) (t : Except JsError Unit)
    (m : Except JsError ConditionalMetrics) (p : Except JsError PhaseInfo)
    (h : Except JsError HealthStatus) : SimState :=
  match t with
  | .ok _ => loadEnhancedData s m p h
  | .error e =>
      { s with error := some ("Failed to trigger emergency: " ++ e.message) }

/-- `forceCoordinationMode` (SimulationContext.tsx lines 249–263): awaits
`forceCoordination()` then refreshes the enhanced data; a failure only
records an error message (connection status and snapshot are untouched). -/
def forceCoordinationMode (s : SimState) (t : Except JsError Unit)
    (m : Except JsError ConditionalMetrics) (p : Except JsError PhaseInfo)
    (h : Except JsError HealthStatus) : SimState :=
  match t with
  | .ok _ => loadEnhancedData s m p h
  | .error e =>
      { s with error := some ("Failed to force coordination: " ++ e.message) }

/-- One firing of the `setInterval` callback installed by the mount effect
(SimulationContext.tsx lines 265–301).  `captured` is the value of the
`connectionStatus` binding the callback closed over.  In the `disconnected`
branch it awaits `healthCheck()` and, when the parsed body is truthy
(`if (health)` — a JSON `null` body is falsy, embedded as `Option.isSome`),
marks `connected`, clears the error and re-runs `loadAllData`; in the
`connected` branch it refreshes the enhanced data; otherwise it does
nothing. -/
def intervalTick (captured : ConnStatus) (s : SimState)
    (hres : Except JsError (Option HealthStatus)) (g : Except JsError Grid)
    (l : Except JsError LogsResponse) (a : Except JsError AgentsMap)
    (m : Except JsError ConditionalMetrics) (p : Except JsError PhaseInfo)
    (h : Except JsError HealthStatus) (now : Nat)
    (m2 : Except JsError ConditionalMetrics) (p2 : Except JsError PhaseInfo)
    (h2 : Except JsError HealthStatus) : SimState :=
  match captured with
  | .disconnected =>
      match hres with
      | .ok health =>
          if health.isSome then
            let s1 : SimState := { s with connectionStatus := .connected, error := none }
            loadAllData s1 g l a m p h now
          else s
      | .error _ => s
  | .connected => loadEnhancedData s m2 p2 h2
  | .connecting => s

/-- The `connectionStatus` value actually captured by the interval callback:
the mount effect runs once (empty dependency array), so its closure holds the
first render's binding, whose value is the `useState` initial value
`connecting` — not the current status at firing time. -/
def capturedStatusAtMount : ConnStatus := ConnStatus.connecting

/-- The coordinate key of a cell in `GridMap`
(`src/apps/frontend/src/components/GridMap.tsx`, line 62): the template
literal `${x},${y}` over the two decimal numerals. -/
def mkCellKey (x y : Nat) : String :=
  Nat.repr x ++ "," ++ Nat.repr y

/-- The ordered list of cell keys rendered by `GridMap` (lines 59–62):
index `i` ranges over `[0, width*height)`, `x = i % width`,
`y = Math.floor(i / width)`. -/
def gridCellKeys (w h : Nat) : List String :=
  (List.range (w * h)).map (fun i => mkCellKey (i % w) (i / w))

/-- JavaScript truthiness of an optional string field: `undefined`/`null`
and the empty string are falsy. -/
def jsTruthy (v : Option String) : Bool :=
  match v with
  | none => false
  | some s => decide (s ≠ "")

/-- The `switch (cell.occupied_by)` of `renderCell`
(GridMap.tsx lines 107–116). -/
def occupantIcon (agent : String) : String :=
  if agent = "builder" then "🔨"
  else if agent = "scout" then "👀"
  else if agent = "strategist" then "🧠"
  else "🤖"

/-- `renderCell` (GridMap.tsx lines 105–124).  The argument is the result of
the lookup `grid.cells[cellKey]`, hence `Option Cell`; `cell?.occupied_by`
and `cell?.structure` are the optional chains (`Option.bind`), the first
tested for truthiness, the second strictly compared with `"building"`. -/
def renderCell (cell : Option Cell) : String :=
  if jsTruthy (cell.bind Cell.occupied_by) then
    occupantIcon ((cell.bind Cell.occupied_by).getD "")
  else if cell.bind Cell.«structure» = some "building" then "🏠"
  else "⬜"

/-- `grid.cells[cellKey]` for the coordinate `(x, y)` (GridMap.tsx line 63). -/
def cellAt (g : Grid) (x y : Nat) : Option Cell :=
  g.cells.lookup (mkCellKey x y)

/-- The content `GridMap` renders at coordinate `(x, y)` (line 71). -/
def renderAt (g : Grid) (x y : Nat) : String :=
  renderCell (cellAt g x y)

/-- Every icon `renderCell` can produce (GridMap.tsx lines 105–124). -/
def iconList : List String := ["🔨", "👀", "🧠", "🤖", "🏠", "⬜"]

/-! Supporting facts about the decimal numeral `Nat.repr`, needed to show the
`GridMap` keys `"x,y"` are pairwise distinct: `Nat.repr` is injective and its
characters never include the separator `','`. -/

/-- Inverse of `Nat.digitChar` on decimal digits. -/
def charToDigit (c : Char) : Nat :=
  if c = '0' then 0 else if c = '1' then 1 else if c = '2' then 2
  else if c = '3' then 3 else if c = '4' then 4 else if c = '5' then 5
  else if c = '6' then 6 else if c = '7' then 7 else if c = '8' then 8
  else if c = '9' then 9 else 0

/-- Value of a most-significant-first decimal digit-character list. -/
def ofDigitChars (l : List Char) : Nat :=
  l.foldl (fun a c => a * 10 + charToDigit c) 0

theorem charToDigit_digitChar (d : Nat) (hd : d < 10) :
    charToDigit (Nat.digitChar d) = d := by
  interval_cases d <;> rfl

theorem digitChar_ne_comma (k : Nat) : Nat.digitChar k ≠ ',' := by
  by_cases hk : k < 16
  · interval_cases k <;> decide
  · unfold Nat.digitChar
    repeat rw [if_neg (by omega)]
    decide

theorem toDigitsCore_acc (b f : Nat) : ∀ (n : Nat) (acc : List Char),
    Nat.toDigitsCore b f n acc = Nat.toDigitsCore b f n [] ++ acc := by
  induction f with
  | zero => intro n acc; simp [Nat.toDigitsCore]
  | succ f ih =>
      intro n acc
      simp only [Nat.toDigitsCore]
      by_cases h : n / b = 0
      · simp [h]
      · rw [if_neg h, if_neg h, ih (n / b) (Nat.digitChar (n % b) :: acc),
          ih (n / b) [Nat.digitChar (n % b)], List.append_assoc, List.singleton_append]

theorem ofDigitChars_toDigitsCore (f : Nat) : ∀ n : Nat, n < f →
    ofDigitChars (Nat.toDigitsCore 10 f n []) = n := by
  induction f with
  | zero => intro n hn; omega
  | succ f ih =>
      intro n hn
      simp only [Nat.toDigitsCore]
      by_cases h : n / 10 = 0
      · rw [if_pos h]
        show ofDigitChars [Nat.digitChar (n % 10)] = n
        simp only [ofDigitChars, List.foldl_cons, List.foldl_nil]
        rw [charToDigit_digitChar (n % 10) (Nat.mod_lt n (by norm_num))]
        omega
      · have hpos : 0 < n := by
          rcases Nat.eq_zero_or_pos n with h0 | h0
          · subst h0; simp at h
          · exact h0
        have hdiv : n / 10 < f := by
          have := Nat.div_lt_self hpos (by norm_num : 1 < 10)
          omega
        rw [if_neg h, toDigitsCore_acc, ofDigitChars, List.foldl_append]
        have hfold : List.foldl (fun a c => a * 10 + charToDigit c) 0
            (Nat.toDigitsCore 10 f (n / 10) []) = n / 10 := ih (n / 10) hdiv
        rw [hfold]
        simp only [List.foldl_cons, List.foldl_nil]
        rw [charToDigit_digitChar (n % 10) (Nat.mod_lt n (by norm_num))]
        omega

theorem ofDigitChars_reprData (n : Nat) : ofDigitChars ((Nat.repr n).data) = n := by
  have : (Nat.repr n).data = Nat.toDigitsCore 10 (n + 1) n [] := rfl
  rw [this]
  exact ofDigitChars_toDigitsCore (n + 1) n (Nat.lt_succ_self n)

theorem reprData_inj {m n : Nat} (h : (Nat.repr m).data = (Nat.repr n).data) :
    m = n := by
  have hm := ofDigitChars_reprData m
  have hn := ofDigitChars_reprData n
  rw [h] at hm
  omega

theorem toDigitsCore_no_comma (f : Nat) : ∀ (n : Nat) (acc : List Char),
    (∀ c ∈ acc, c ≠ ',') → ∀ c ∈ Nat.toDigitsCore 10 f n acc, c ≠ ',' := by
  induction f with
  | zero => intro n acc hacc; simpa [Nat.toDigitsCore] using hacc
  | succ f ih =>
      intro n acc hacc
      simp only [Nat.toDigitsCore]
      by_cases h : n / 10 = 0
      · rw [if_pos h]
        intro c hc
        rcases List.mem_cons.mp hc with rfl | hmem
        · exact digitChar_ne_comma (n % 10)
        · exact hacc c hmem
      · rw [if_neg h]
        refine ih (n / 10) _ ?_
        intro c hc
        rcases List.mem_cons.mp hc with rfl | hmem
        · exact digitChar_ne_comma (n % 10)
        · exact hacc c hmem

theorem repr_no_comma (n : Nat) : ',' ∉ (Nat.repr n).data := by
  intro hmem
  have : (Nat.repr n).data = Nat.toDigitsCore 10 (n + 1) n [] := rfl
  rw [this] at hmem
  exact toDigitsCore_no_comma (n + 1) n [] (by simp) ',' hmem rfl

theorem append_comma_inj : ∀ (l₁ l₂ r₁ r₂ : List Char), ',' ∉ l₁ → ',' ∉ l₂ →
    l₁ ++ ',' :: r₁ = l₂ ++ ',' :: r₂ → l₁ = l₂ ∧ r₁ = r₂ := by
  intro l₁
  induction l₁ with
  | nil =>
      intro l₂ r₁ r₂ _ h₂ heq
      cases l₂ with
      | nil => simpa using heq
      | cons c t =>
          simp only [List.nil_append, List.cons_append, List.cons.injEq] at heq
          exact absurd (by simp [← heq.1]) h₂
  | cons c t ih =>
      intro l₂ r₁ r₂ h₁ h₂ heq
      cases l₂ with
      | nil =>
          simp only [List.cons_append, List.nil_append, List.cons.injEq] at heq
          exact absurd (by simp [heq.1]) h₁
      | cons c2 t2 =>
          simp only [List.cons_append, List.cons.injEq] at heq
          obtain ⟨rfl, heq⟩ := heq
          have ht := ih t2 r₁ r₂ (fun hm => h₁ (List.mem_cons_of_mem _ hm))
            (fun hm => h₂ (List.mem_cons_of_mem _ hm)) heq
          exact ⟨by rw [ht.1], ht.2⟩

theorem mkCellKey_inj {x y x2 y2 : Nat} (h : mkCellKey x y = mkCellKey x2 y2) :
    x = x2 ∧ y = y2 := by
  have hd := congrArg String.data h
  simp only [mkCellKey, String.data_append] at hd
  simp only [List.append_assoc, List.singleton_append] at hd
  obtain ⟨h1, h2⟩ :=
    append_comma_inj _ _ _ _ (repr_no_comma x) (repr_no_comma x2) hd
  exact ⟨reprData_inj h1, reprData_inj h2⟩

theorem gridCellKeys_length (w h : Nat) : (gridCellKeys w h).length = w * h := by
  simp [gridCellKeys]

theorem gridCellKeys_nodup (w h : Nat) : (gridCellKeys w h).Nodup := by
  rcases Nat.eq_zero_or_pos w with hw | hw
  · subst hw; simp [gridCellKeys]
  · refine List.Nodup.map_on ?_ (List.nodup_range _)
    intro i _ j _ hkey
    obtain ⟨hx, hy⟩ := mkCellKey_inj hkey
    calc i = w * (i / w) + i % w := (Nat.div_add_mod i w).symm
      _ = w * (j / w) + j % w := by rw [hx, hy]
      _ = j := Nat.div_add_mod j w

theorem gridCellKeys_mem_iff (w h : Nat) (k : String) :
    k ∈ gridCellKeys w h ↔ ∃ x y, x < w ∧ y < h ∧ k = mkCellKey x y := by
  constructor
  · intro hk
    simp only [gridCellKeys, List.mem_map, List.mem_range] at hk
    obtain ⟨i, hi, rfl⟩ := hk
    have hw : 0 < w := by
      rcases Nat.eq_zero_or_pos w with h0 | h0
      · subst h0; simp at hi
      · exact h0
    have hi2 : i < h * w := by rw [Nat.mul_comm w h] at hi; exact hi
    exact ⟨i % w, i / w, Nat.mod_lt i hw, (Nat.div_lt_iff_lt_mul hw).mpr hi2, rfl⟩
  · rintro ⟨x, y, hx, hy, rfl⟩
    simp only [gridCellKeys, List.mem_map, List.mem_range]
    have hw : 0 < w := Nat.lt_of_le_of_lt (Nat.zero_le x) hx
    refine ⟨x + y * w, ?_, ?_⟩
    · calc x + y * w < w + y * w := by omega
        _ = (y + 1) * w := by ring
        _ ≤ h * w := Nat.mul_le_mul_right w hy
        _ = w * h := Nat.mul_comm h w
    · rw [Nat.add_mul_mod_self_right, Nat.mod_eq_of_lt hx,
        Nat.add_mul_div_right x y hw, Nat.div_eq_of_lt hx, Nat.zero_add]

/-- The projection rule exactly as claim C7 words it: the occupant icon when
`occupied_by` is present, else the structure icon when a structure is
present, else the empty icon. -/
def renderCellClaim (cell : Option Cell) : String :=
  match cell.bind Cell.occupied_by with
  | some a => occupantIcon a
  | none =>
      match cell.bind Cell.«structure» with
      | some _ => "🏠"
      | none => "⬜"

/-- The projection rule as amended: the occupant icon when `occupied_by` is
present as a non-empty string, else the building icon exactly when
`structure` is the string `"building"`, else the empty icon. -/
def renderCellAmended (cell : Option Cell) : String :=
  match cell with
  | none => "⬜"
  | some c =>
      match c.occupied_by with
      | some a =>
          if a ≠ "" then occupantIcon a
          else if c.«structure» = some "building" then "🏠" else "⬜"
      | none => if c.«structure» = some "building" then "🏠" else "⬜"

/-- Helper for C10: `renderCell` always produces one of the six icons. -/
theorem renderCell_mem_iconList (cell : Option Cell) : renderCell cell ∈ iconList := by
  unfold renderCell occupantIcon iconList
  split_ifs <;> simp

/-- A healthy snapshot state after a successful load, used as a concrete
starting point by counterexamples. -/
def exampleAgent : AgentState :=
  { id := "scout", role := "scout", status := "idle", memory := [], position := some (0, 0) }

/-- A concrete 1×1 grid with one occupied cell. -/
def exampleGrid : Grid :=
  { width := 1, height := 1,
    cells := [("0,0", { occupied_by := some "scout", «structure» := none })] }

/-- A concrete state whose basic snapshot is healthy and whose connection
status is `connected`. -/
def exampleConnectedState : SimState :=
  { initialState with
    grid := some exampleGrid
    logs := ["[Scout] Moved north."]
    agents := [("scout", exampleAgent)]
    connectionStatus := .connected
    loading := false }

/-- A concrete `ConditionalMetrics` value. -/
def exampleMetrics : ConditionalMetrics :=
  { mission_phase := "exploration", phase_transitions := 1, coordination_events := 0,
    emergency_activations := 0, last_activity := [], coordination_needed := false,
    strategic_plan_ready := false, active_threats := 0, resource_constraints := false }

/-- C1: for every run of `load()` in which at least one of
fetchGrid/fetchLogs/fetchAgents fails, after `load()` completes the
connection status is `disconnected`, `grid` is null, `agents` is an empty
mapping, and `logs` is the single-element fallback array. -/
theorem C1_basic_load_failure_fallback (s : SimState) (g : Except JsError Grid)
    (l : Except JsError LogsResponse) (a : Except JsError AgentsMap)
    (m : Except JsError ConditionalMetrics) (p : Except JsError PhaseInfo)
    (h : Except JsError HealthStatus) (now : Nat)
    (hfail : (∃ e, g = Except.error e) ∨ (∃ e, l = Except.error e) ∨
      (∃ e, a = Except.error e)) :
    (loadAllData s g l a m p h now).connectionStatus = ConnStatus.disconnected ∧
    (loadAllData s g l a m p h now).grid = none ∧
    (loadAllData s g l a m p h now).agents = [] ∧
    (loadAllData s g l a m p h now).logs = [fallbackLogLine] := by
  rcases g with e1 | gv <;> rcases l with e2 | lv <;> rcases a with e3 | av <;>
    simp_all [loadAllData, loadBasicData]

/-- Witness for C1 at a concrete failing grid fetch. -/
theorem C1_witness :
    (loadAllData initialState (Except.error (JsError.transport "Failed to fetch"))
        (Except.ok { logs := none }) (Except.ok []) (Except.ok exampleMetrics)
        (Except.error (JsError.transport "Failed to fetch"))
        (Except.error (JsError.transport "Failed to fetch")) 0).connectionStatus
      = ConnStatus.disconnected ∧
    (loadAllData initialState (Except.error (JsError.transport "Failed to fetch"))
        (Except.ok { logs := none }) (Except.ok []) (Except.ok exampleMetrics)
        (Except.error (JsError.transport "Failed to fetch"))
        (Except.error (JsError.transport "Failed to fetch")) 0).grid = none ∧
    (loadAllData initialState (Except.error (JsError.transport "Failed to fetch"))
        (Except.ok { logs := none }) (Except.ok []) (Except.ok exampleMetrics)
        (Except.error (JsError.transport "Failed to fetch"))
        (Except.error (JsError.transport "Failed to fetch")) 0).agents = [] ∧
    (loadAllData initialState (Except.error (JsError.transport "Failed to fetch"))
        (Except.ok { logs := none }) (Except.ok []) (Except.ok exampleMetrics)
        (Except.error (JsError.transport "Failed to fetch"))
        (Except.error (JsError.transport "Failed to fetch")) 0).logs = [fallbackLogLine] :=
  C1_basic_load_failure_fallback initialState
    (Except.error (JsError.transport "Failed to fetch")) (Except.ok { logs := none })
    (Except.ok []) (Except.ok exampleMetrics)
    (Except.error (JsError.transport "Failed to fetch"))
    (Except.error (JsError.transport "Failed to fetch")) 0
    (Or.inl ⟨JsError.transport "Failed to fetch", rfl⟩)

/-- C2: a `step()` whose backend call fails, issued on the state produced by a
successful `load()` (all three basic fetches resolved), leaves the loaded
grid, logs and agents unchanged and sets the connection status to
`disconnected`. -/
theorem C2_step_failure_preserves_snapshot (s0 : SimState) (gv : Grid)
    (lv : LogsResponse) (av : AgentsMap) (m : Except JsError ConditionalMetrics)
    (p : Except JsError PhaseInfo) (h : Except JsError HealthStatus) (now : Nat)
    (e : JsError) (m2 : Except JsError ConditionalMetrics)
    (p2 : Except JsError PhaseInfo) (h2 : Except JsError HealthStatus) (now2 : Nat) :
    (step (loadAllData s0 (Except.ok gv) (Except.ok lv) (Except.ok av) m p h now)
        (Except.error e) m2 p2 h2 now2).grid
      = (loadAllData s0 (Except.ok gv) (Except.ok lv) (Except.ok av) m p h now).grid ∧
    (step (loadAllData s0 (Except.ok gv) (Except.ok lv) (Except.ok av) m p h now)
        (Except.error e) m2 p2 h2 now2).logs
      = (loadAllData s0 (Except.ok gv) (Except.ok lv) (Except.ok av) m p h now).logs ∧
    (step (loadAllData s0 (Except.ok gv) (Except.ok lv) (Except.ok av) m p h now)
        (Except.error e) m2 p2 h2 now2).agents
      = (loadAllData s0 (Except.ok gv) (Except.ok lv) (Except.ok av) m p h now).agents ∧
    (step (loadAllData s0 (Except.ok gv) (Except.ok lv) (Except.ok av) m p h now)
        (Except.error e) m2 p2 h2 now2).connectionStatus = ConnStatus.disconnected :=
  ⟨rfl, rfl, rfl, rfl⟩

/-- C3: when the three basic fetches succeed but `fetchConditionalMetrics`
fails, the snapshot keeps the fetched agents, `conditionalMetrics` is null,
the other enhanced fetches land unaffected, and the status becomes
`connected`. -/
theorem C3_enhanced_failure_isolated (s : SimState) (gv : Grid)
    (lv : LogsResponse) (av : AgentsMap) (em : JsError)
    (p : Except JsError PhaseInfo) (h : Except JsError HealthStatus) (now : Nat) :
    (loadAllData s (Except.ok gv) (Except.ok lv) (Except.ok av)
        (Except.error em) p h now).agents = av ∧
    (loadAllData s (Except.ok gv) (Except.ok lv) (Except.ok av)
        (Except.error em) p h now).conditionalMetrics = none ∧
    (loadAllData s (Except.ok gv) (Except.ok lv) (Except.ok av)
        (Except.error em) p h now).phaseInfo = p.toOption ∧
    (loadAllData s (Except.ok gv) (Except.ok lv) (Except.ok av)
        (Except.error em) p h now).healthStatus = h.toOption ∧
    (loadAllData s (Except.ok gv) (Except.ok lv) (Except.ok av)
        (Except.error em) p h now).connectionStatus = ConnStatus.connected :=
  ⟨rfl, rfl, rfl, rfl, rfl⟩

/-- C4 (code defect): the mount effect runs once with an empty dependency
array, so the interval callback closes over the first render's
`connectionStatus` binding, whose value is the `useState` initial value
`connecting` (`capturedStatusAtMount`).  With that captured value the
callback matches neither the `disconnected` nor the `connected` branch, so a
timer firing never runs the health check and never changes the state — even
when the current connection status is `disconnected`. -/
theorem C4_interval_callback_never_probes (s : SimState)
    (hres : Except JsError (Option HealthStatus)) (g : Except JsError Grid)
    (l : Except JsError LogsResponse) (a : Except JsError AgentsMap)
    (m : Except JsError ConditionalMetrics) (p : Except JsError PhaseInfo)
    (h : Except JsError HealthStatus) (now : Nat)
    (m2 : Except JsError ConditionalMetrics) (p2 : Except JsError PhaseInfo)
    (h2 : Except JsError HealthStatus) :
    intervalTick capturedStatusAtMount s hres g l a m p h now m2 p2 h2 = s := rfl

/-- C5 counterexample: a thrown network exception is rethrown unchanged by
`apiCall` (the caller observes the transport-specific exception, not a
normalized error), and `healthCheck` returns the parsed body of a 500
response instead of raising any error. -/
theorem C5_counterexample :
    (apiCall "/grid" (FetchOutcome.netFail "TypeError: Failed to fetch") :
        Except JsError Grid)
      = Except.error (JsError.transport "TypeError: Failed to fetch") ∧
    (∀ msg, JsError.transport "TypeError: Failed to fetch" ≠ JsError.apiError msg) ∧
    healthCheck (FetchOutcome.response 500 "Internal Server Error" exampleMetrics)
      = Except.ok exampleMetrics := by
  refine ⟨rfl, ?_, rfl⟩
  intro msg hcontra
  exact JsError.noConfusion hcontra

/-- C5 amended: operations routed through `apiCall` raise the normalized
`apiError` (whose message carries the HTTP status and status text) exactly on
non-2xx responses, but a thrown network exception is re-raised unchanged as a
transport-specific error, and `healthCheck` bypasses the normalization
entirely, returning the parsed body for any response status. -/
theorem C5_amended_error_contract {α : Type} (endpoint : String) (st : Nat)
    (stxt : String) (body : α) (hbad : ¬(200 ≤ st ∧ st < 300)) :
    apiCall endpoint (FetchOutcome.response st stxt body)
      = Except.error
          (JsError.apiError ("API call failed: " ++ toString st ++ " " ++ stxt)) ∧
    (∀ msg, apiCall endpoint (FetchOutcome.netFail msg : FetchOutcome α)
      = Except.error (JsError.transport msg)) ∧
    healthCheck (FetchOutcome.response st stxt body) = Except.ok body := by
  refine ⟨?_, fun msg => rfl, rfl⟩
  simp [apiCall, hbad]

/-- Witness for C5 amended at a concrete 500 response. -/
theorem C5_amended_witness :
    apiCall "/grid" (FetchOutcome.response 500 "Internal Server Error" exampleGrid)
      = Except.error
          (JsError.apiError ("API call failed: " ++ toString 500 ++ " Internal Server Error")) ∧
    (∀ msg, apiCall "/grid" (FetchOutcome.netFail msg : FetchOutcome Grid)
      = Except.error (JsError.transport msg)) ∧
    healthCheck (FetchOutcome.response 500 "Internal Server Error" exampleGrid)
      = Except.ok exampleGrid :=
  C5_amended_error_contract "/grid" 500 "Internal Server Error" exampleGrid (by decide)

/-- C6: the grid rendering enumerates exactly `width * height` cell keys, the
keys are pairwise distinct, and they are precisely the strings `"x,y"` with
`x < width` and `y < height`. -/
theorem C6_grid_rendering_keys (w h : Nat) :
    (gridCellKeys w h).length = w * h ∧ (gridCellKeys w h).Nodup ∧
    ∀ k, k ∈ gridCellKeys w h ↔ ∃ x y, x < w ∧ y < h ∧ k = mkCellKey x y :=
  ⟨gridCellKeys_length w h, gridCellKeys_nodup w h, fun k => gridCellKeys_mem_iff w h k⟩

/-- C7 counterexample: `renderCell` deviates from the claimed projection rule
at two concrete cells: a cell whose structure is present but not `"building"`
renders empty instead of the structure icon, and a cell whose `occupied_by`
is present but the empty string renders empty instead of an occupant icon. -/
theorem C7_counterexample :
    renderCell (some { occupied_by := none, «structure» := some "wall" }) = "⬜" ∧
    renderCellClaim (some { occupied_by := none, «structure» := some "wall" }) = "🏠" ∧
    renderCell (some { occupied_by := some "", «structure» := none }) = "⬜" ∧
    renderCellClaim (some { occupied_by := some "", «structure» := none }) = "🤖" :=
  ⟨rfl, rfl, rfl, rfl⟩

/-- C7 amended: for every cell, the rendered content is the occupant icon
when `occupied_by` is present as a non-empty string, else the building icon
exactly when `structure` is the string `"building"`, else the empty icon; no
other rule affects the projection. -/
theorem C7_render_projection (cell : Option Cell) :
    renderCell cell = renderCellAmended cell := by
  rcases cell with _ | ⟨occ, st⟩
  · rfl
  · rcases occ with _ | a
    · simp [renderCell, renderCellAmended, jsTruthy, Option.bind]
    · by_cases ha : a = ""
      · subst ha
        simp [renderCell, renderCellAmended, jsTruthy, Option.bind]
      · simp [renderCell, renderCellAmended, jsTruthy, Option.bind, ha]

/-- C8 counterexample: a failing `triggerEmergencyMode` on a healthy
connected state leaves the connection status `connected` — it does not flip
to `disconnected` as claimed. -/
theorem C8_counterexample :
    (triggerEmergencyMode exampleConnectedState
        (Except.error (JsError.transport "Failed to fetch"))
        (Except.error (JsError.transport "Failed to fetch"))
        (Except.error (JsError.transport "Failed to fetch"))
        (Except.error (JsError.transport "Failed to fetch"))).connectionStatus
      = ConnStatus.connected ∧
    ConnStatus.connected ≠ ConnStatus.disconnected :=
  ⟨rfl, by decide⟩

/-- C8 amended: every failing action retains the last good snapshot (grid,
logs, agents) without a destructive fallback, but only a failing `step()`
flips the connection status to `disconnected`; failing `reset`,
`triggerEmergencyMode` and `forceCoordinationMode` leave the connection
status unchanged and only record an error message. -/
theorem C8_action_failure_behavior (s : SimState) (e : JsError)
    (m : Except JsError ConditionalMetrics) (p : Except JsError PhaseInfo)
    (h : Except JsError HealthStatus) (now : Nat) (g : Except JsError Grid)
    (l : Except JsError LogsResponse) (a : Except JsError AgentsMap) :
    ((step s (Except.error e) m p h now).grid = s.grid ∧
      (step s (Except.error e) m p h now).logs = s.logs ∧
      (step s (Except.error e) m p h now).agents = s.agents ∧
      (step s (Except.error e) m p h now).connectionStatus = ConnStatus.disconnected) ∧
    ((reset s (Except.error e) g l a m p h now).grid = s.grid ∧
      (reset s (Except.error e) g l a m p h now).logs = s.logs ∧
      (reset s (Except.error e) g l a m p h now).agents = s.agents ∧
      (reset s (Except.error e) g l a m p h now).connectionStatus = s.connectionStatus) ∧
    ((triggerEmergencyMode s (Except.error e) m p h).grid = s.grid ∧
      (triggerEmergencyMode s (Except.error e) m p h).logs = s.logs ∧
      (triggerEmergencyMode s (Except.error e) m p h).agents = s.agents ∧
      (triggerEmergencyMode s (Except.error e) m p h).connectionStatus
        = s.connectionStatus) ∧
    ((forceCoordinationMode s (Except.error e) m p h).grid = s.grid ∧
      (forceCoordinationMode s (Except.error e) m p h).logs = s.logs ∧
      (forceCoordinationMode s (Except.error e) m p h).agents = s.agents ∧
      (forceCoordinationMode s (Except.error e) m p h).connectionStatus
        = s.connectionStatus) :=
  ⟨⟨rfl, rfl, rfl, rfl⟩, ⟨rfl, rfl, rfl, rfl⟩, ⟨rfl, rfl, rfl, rfl⟩, ⟨rfl, rfl, rfl, rfl⟩⟩

/-- C9 counterexample: after a basic-fetch failure during `load()`, the
enhanced field `conditionalMetrics` is reset to null instead of being left at
its last-known value. -/
theorem C9_counterexample :
    ({ exampleConnectedState with conditionalMetrics := some exampleMetrics } :
        SimState).conditionalMetrics = some exampleMetrics ∧
    (loadAllData { exampleConnectedState with conditionalMetrics := some exampleMetrics }
        (Except.error (JsError.transport "Failed to fetch")) (Except.ok { logs := none })
        (Except.ok []) (Except.ok exampleMetrics)
        (Except.error (JsError.transport "Failed to fetch"))
        (Except.error (JsError.transport "Failed to fetch")) 0).conditionalMetrics
      = none ∧
    (none : Option ConditionalMetrics) ≠ some exampleMetrics :=
  ⟨rfl, rfl, by decide⟩

/-- C9 amended: a failing basic fetch during `load()` resets the basic data
to the explicit fallback values AND resets `conditionalMetrics`, `phaseInfo`
and `healthStatus` to null; the connection status becomes `disconnected`,
`loading` ends false, and the remaining fields `lastUpdated` and `stepping`
are left at their last-known values. -/
theorem C9_load_failure_frame (s : SimState) (g : Except JsError Grid)
    (l : Except JsError LogsResponse) (a : Except JsError AgentsMap)
    (m : Except JsError ConditionalMetrics) (p : Except JsError PhaseInfo)
    (h : Except JsError HealthStatus) (now : Nat)
    (hfail : (∃ e, g = Except.error e) ∨ (∃ e, l = Except.error e) ∨
      (∃ e, a = Except.error e)) :
    (loadAllData s g l a m p h now).grid = none ∧
    (loadAllData s g l a m p h now).logs = [fallbackLogLine] ∧
    (loadAllData s g l a m p h now).agents = [] ∧
    (loadAllData s g l a m p h now).conditionalMetrics = none ∧
    (loadAllData s g l a m p h now).phaseInfo = none ∧
    (loadAllData s g l a m p h now).healthStatus = none ∧
    (loadAllData s g l a m p h now).connectionStatus = ConnStatus.disconnected ∧
    (loadAllData s g l a m p h now).loading = false ∧
    (loadAllData s g l a m p h now).lastUpdated = s.lastUpdated ∧
    (loadAllData s g l a m p h now).stepping = s.stepping := by
  rcases g with e1 | gv <;> rcases l with e2 | lv <;> rcases a with e3 | av <;>
    simp_all [loadAllData, loadBasicData]

/-- Witness for C9 amended at a concrete failing agents fetch. -/
theorem C9_load_failure_frame_witness :
    (loadAllData exampleConnectedState (Except.ok exampleGrid)
        (Except.ok { logs := some ["ok"] })
        (Except.error (JsError.apiError "API call failed: 503 Service Unavailable"))
        (Except.ok exampleMetrics) (Except.error (JsError.transport "x"))
        (Except.error (JsError.transport "x")) 7).grid = none ∧
    (loadAllData exampleConnectedState (Except.ok exampleGrid)
        (Except.ok { logs := some ["ok"] })
        (Except.error (JsError.apiError "API call failed: 503 Service Unavailable"))
        (Except.ok exampleMetrics) (Except.error (JsError.transport "x"))
        (Except.error (JsError.transport "x")) 7).logs = [fallbackLogLine] ∧
    (loadAllData exampleConnectedState (Except.ok exampleGrid)
        (Except.ok { logs := some ["ok"] })
        (Except.error (JsError.apiError "API call failed: 503 Service Unavailable"))
        (Except.ok exampleMetrics) (Except.error (JsError.transport "x"))
        (Except.error (JsError.transport "x")) 7).agents = [] ∧
    (loadAllData exampleConnectedState (Except.ok exampleGrid)
        (Except.ok { logs := some ["ok"] })
        (Except.error (JsError.apiError "API call failed: 503 Service Unavailable"))
        (Except.ok exampleMetrics) (Except.error (JsError.transport "x"))
        (Except.error (JsError.transport "x")) 7).conditionalMetrics = none ∧
    (loadAllData exampleConnectedState (Except.ok exampleGrid)
        (Except.ok { logs := some ["ok"] })
        (Except.error (JsError.apiError "API call failed: 503 Service Unavailable"))
        (Except.ok exampleMetrics) (Except.error (JsError.transport "x"))
        (Except.error (JsError.transport "x")) 7).phaseInfo = none ∧
    (loadAllData exampleConnectedState (Except.ok exampleGrid)
        (Except.ok { logs := some ["ok"] })
        (Except.error (JsError.apiError "API call failed: 503 Service Unavailable"))
        (Except.ok exampleMetrics) (Except.error (JsError.transport "x"))
        (Except.error (JsError.transport "x")) 7).healthStatus = none ∧
    (loadAllData exampleConnectedState (Except.ok exampleGrid)
        (Except.ok { logs := some ["ok"] })
        (Except.error (JsError.apiError "API call failed: 503 Service Unavailable"))
        (Except.ok exampleMetrics) (Except.error (JsError.transport "x"))
        (Except.error (JsError.transport "x")) 7).connectionStatus
      = ConnStatus.disconnected ∧
    (loadAllData exampleConnectedState (Except.ok exampleGrid)
        (Except.ok { logs := some ["ok"] })
        (Except.error (JsError.apiError "API call failed: 503 Service Unavailable"))
        (Except.ok exampleMetrics) (Except.error (JsError.transport "x"))
        (Except.error (JsError.transport "x")) 7).loading = false ∧
    (loadAllData exampleConnectedState (Except.ok exampleGrid)
        (Except.ok { logs := some ["ok"] })
        (Except.error (JsError.apiError "API call failed: 503 Service Unavailable"))
        (Except.ok exampleMetrics) (Except.error (JsError.transport "x"))
        (Except.error (JsError.transport "x")) 7).lastUpdated
      = exampleConnectedState.lastUpdated ∧
    (loadAllData exampleConnectedState (Except.ok exampleGrid)
        (Except.ok { logs := some ["ok"] })
        (Except.error (JsError.apiError "API call failed: 503 Service Unavailable"))
        (Except.ok exampleMetrics) (Except.error (JsError.transport "x"))
        (Except.error (JsError.transport "x")) 7).stepping
      = exampleConnectedState.stepping :=
  C9_load_failure_frame exampleConnectedState (Except.ok exampleGrid)
    (Except.ok { logs := some ["ok"] })
    (Except.error (JsError.apiError "API call failed: 503 Service Unavailable"))
    (Except.ok exampleMetrics) (Except.error (JsError.transport "x"))
    (Except.error (JsError.transport "x")) 7
    (Or.inr (Or.inr ⟨JsError.apiError "API call failed: 503 Service Unavailable", rfl⟩))

/-- C10: for every in-bounds coordinate whose key is absent from the grid's
cell mapping, rendering yields the empty icon rather than failing, and
`renderCell` is total over present, absent and partially populated cells: it
always produces one of the six icons. -/
theorem C10_absent_cell_renders_empty (g : Grid) (x y : Nat)
    (hx : x < g.width) (hy : y < g.height) (habsent : cellAt g x y = none) :
    renderAt g x y = "⬜" ∧ ∀ cell : Option Cell, renderCell cell ∈ iconList := by
  constructor
  · rw [renderAt, habsent]; rfl
  · exact renderCell_mem_iconList

/-- Witness for C10 on a concrete 1×1 grid with an empty cell mapping. -/
theorem C10_witness :
    (0 < (Grid.mk 1 1 []).width ∧ 0 < (Grid.mk 1 1 []).height ∧
      cellAt (Grid.mk 1 1 []) 0 0 = none) ∧
    (renderAt (Grid.mk 1 1 []) 0 0 = "⬜" ∧
      ∀ cell : Option Cell, renderCell cell ∈ iconList) :=
  ⟨⟨by decide, by decide, rfl⟩,
    C10_absent_cell_renders_empty (Grid.mk 1 1 []) 0 0 (by decide) (by decide) rfl⟩

end AgentGridSim
